import Mathlib

/-!
Verification of the DLC (Direct Load Control) override request engine.

This file gives a shallow embedding, in Lean 4, of the parts of the
`serverless-poc` Python code base that the checked properties talk about:

* `src/utils/request_validator.py` — syntactic validation
  (`validate_dlc_override_request`) and temporal overlap / duplicate
  detection (`validate_request_duration`);
* `src/utils/tracker_utils.py` — the request tracker store
  (`create_tracker`, `update_tracker`, `update_header_record`,
  `add_tracker_detail`, `get_terminal_request`, `dispatching_records`);
* `src/lambdas/dlc_override_statemachine_fn.py` — `extend_policy`;
* `src/lambdas/dlc_cancel_override_apigw_fn.py` — `process_request`;
* `src/lambdas/dlc_override_throttle_fn.py` — the batch rate-limit sleep
  in `lambda_handler`;
* `src/model/BaseMeterEvent.py` — `as_camelcase_dict`.

Modelling conventions:

* Instants (the values of parsed `datetime` objects) are integers
  (seconds); ISO-8601 strings that the Python code compares for equality
  are modelled by the instants they denote.
* A Python value that may be absent from a dict is an `Option`;
  Python truthiness of strings is `s ≠ ""`, of integers `n ≠ 0`,
  of `datetime` and enum values `isSome`.
* DynamoDB tables are association lists keyed by the item keys the code
  uses; `put_item` replaces the item with the same key.
* Fallible Python code (exceptions, DynamoDB conditional-write failures)
  is modelled with `Except String`.
-/

namespace Dlc

/-- The `Stage` enumeration of `msi_common/enums.py`. -/
inductive Stage where
  | RECEIVED
  | FAILED
  | DECLINED
  | QUEUED
  | POLICY_CREATED
  | POLICY_EXTENDED
  | POLICY_DEPLOYED
  | DLC_OVERRIDE_STARTED
  | DLC_OVERRIDE_FINISHED
  | DLC_OVERRIDE_FAILURE
  | CANCELLED
  | EXTENDED_BY
  | EXTENDS
  deriving DecidableEq, Repr

/-- The `ValidationError` dataclass of `request_validator.py`. -/
structure ValidationError where
  error : String
  deriving DecidableEq, Repr

/-- The `MSG_DUPLICATE` constant of `request_validator.py`. -/
def MSG_DUPLICATE : String := "Request is the duplicate of an existing request"

/-- The `MSG_OVERLAP` constant of `request_validator.py` (abbreviated). -/
def MSG_OVERLAP : String :=
  "Request rejected as it overlaps with at least one existing request; please cancel the existing request(s)"

/-!
## Temporal validation: `RequestValidator.validate_request_duration`

The function queries the tracker for candidate records on the same
`(site, meter)` — non-terminal requests whose window can intersect the
proposed `[s, e]` — and then scans the retrieved list in order.  We embed
the scan loop over the candidate list; a candidate is the pair
`(rqstStrtDt, rqstEndDt)` of the existing record, an instant pair.

The Python accumulates errors in a `set` but `break`s immediately after
the first `add`, so the returned list has at most one element; the scan
below returns that list directly.
-/

/-- The classification loop at the end of `validate_request_duration`
(`request_validator.py` lines 267-290): `s`, `e` are the proposed start
and end; the list holds `(rqstStrtDt, rqstEndDt)` of each retrieved
candidate, in retrieval order. -/
def validate_request_duration_scan (s e : Int) :
    List (Int × Int) → List ValidationError
  | [] => []
  | (rs, re) :: rest =>
    if rs = s ∧ re = e then
      -- Duplicate non-CANCELLED request; exit as soon as we can.
      [⟨MSG_DUPLICATE⟩]
    else if rs = e then
      -- Contiguous candidate (existing start = new end): skip.
      validate_request_duration_scan s e rest
    else if re = s then
      -- Contiguous candidate (existing end = new start): skip.
      validate_request_duration_scan s e rest
    else
      -- No other option - must be an under/overlap; exit as soon as we can.
      [⟨MSG_OVERLAP⟩]

/-- A candidate is skipped as contiguous when it is not an exact
duplicate of `[s, e]` and one of its endpoints meets the proposed window
(`existing.start = e` or `existing.end = s`). -/
def isContiguousSkip (s e : Int) (it : Int × Int) : Prop :=
  ¬(it.1 = s ∧ it.2 = e) ∧ (it.1 = e ∨ it.2 = s)

instance (s e : Int) (it : Int × Int) : Decidable (isContiguousSkip s e it) := by
  unfold isContiguousSkip; infer_instance

/-- Claim C1 as stated: on every candidate list the scan yields the
duplicate error as soon as *some* candidate equals `[s,e]`, skips
endpoint-meeting candidates, reports the overlap error for other
intersecting candidates, classifies endpoint-only candidate lists clean,
and surfaces at most one error. -/
def durationClaim (s e : Int) (items : List (Int × Int)) : Prop :=
  ((∃ it ∈ items, it.1 = s ∧ it.2 = e) →
      validate_request_duration_scan s e items = [⟨MSG_DUPLICATE⟩])
  ∧ ((∀ it ∈ items, isContiguousSkip s e it) →
      validate_request_duration_scan s e items = [])
  ∧ (validate_request_duration_scan s e items).length ≤ 1

instance (s e : Int) (items : List (Int × Int)) :
    Decidable (durationClaim s e items) := by
  unfold durationClaim; infer_instance

/-!
## Syntactic validation: `RequestValidator.validate_dlc_override_request`

The incoming request is a JSON dict; the fields the validator looks at
are modelled as `Option`s (`none` = key absent).  `switch_addresses` may
be a plain string or a list of strings.  A supplied datetime string is
modelled by its parse result: `none` when `strptime` raises `ValueError`
(bad format), `some t` when it parses to the instant `t`.
-/

/-- The two shapes `switch_addresses` may take. -/
inductive SwitchAddresses where
  | str (s : String)
  | list (l : List String)
  deriving DecidableEq, Repr

/-- The fields of the submitted request dict that
`validate_dlc_override_request` reads. -/
structure OverrideRequest where
  site : Option String
  switch_addresses : Option SwitchAddresses
  status : Option String
  /-- Convention: `none` = key absent; `some none` = present but malformed;
  `some (some t)` = present, parses to instant `t`. -/
  start_datetime : Option (Option Int)
  /-- Same convention as `start_datetime`. -/
  end_datetime : Option (Option Int)
  deriving DecidableEq, Repr

/-- The `site` checks (`request_validator.py` lines 83-86). -/
def site_errors (request : OverrideRequest) : List ValidationError :=
  match request.site with
  | none => [⟨"Site details required"⟩]
  | some s => if s = "" then [⟨"Site details required"⟩] else []

/-- The `switch_addresses` checks (lines 88-94). -/
def switch_errors (request : OverrideRequest) : List ValidationError :=
  match request.switch_addresses with
  | none => [⟨"Switch addresses (Meter Details) required"⟩]
  | some (.str s) =>
    if s = "" then [⟨"Switch addresses (Meter Details) required"⟩] else []
  | some (.list l) =>
    if l = [] then [⟨"Switch addresses (Meter Details) required"⟩]
    else if l.length > 1 then
      [⟨"Multiple switch addresses supplied - expected one"⟩]
    else []

/-- The `status` checks (lines 96-100). -/
def status_errors (request : OverrideRequest) : List ValidationError :=
  match request.status with
  | none => [⟨"DLC status required"⟩]
  | some st =>
    if st = "ON" ∨ st = "OFF" then []
    else [⟨"DLC status should be either ON or OFF"⟩]

/-- The `start_datetime` block (lines 102-122): returns the errors it
appends together with the value of the local `start` variable afterwards
(`none` when the key is absent or the parse raised).  The derived-end
check only runs when no `end_datetime` key is supplied; a `timedelta` of
`override_duration` minutes is `60 * override_duration` seconds. -/
def start_errors (request : OverrideRequest) (override_duration now : Int) :
    List ValidationError × Option Int :=
  match request.start_datetime with
  | none => ([], none)
  | some none =>
    ([⟨"Invalid start datetime format supplied - should be YYYY-mm-ddTHH:MM:SS+zz:zz"⟩],
     none)
  | some (some t) =>
    (if request.end_datetime = none then
       if t + 60 * override_duration < now then
         [⟨"No end date supplied: request's derived end date would be in the past"⟩]
       else []
     else [],
     some t)

/-- The `end_datetime` block (lines 124-146); `start` is the value of the
local `start` variable left by the start block.  Note the past-date check
compares with `<`: an end date equal to `now` raises no error. -/
def end_errors (request : OverrideRequest) (start : Option Int) (now : Int) :
    List ValidationError :=
  match request.end_datetime with
  | none => []
  | some pe =>
    if request.start_datetime = none then
      [⟨"Cannot have an end_datetime without a start_datetime"⟩]
    else
      match pe with
      | none =>
        [⟨"Invalid end datetime format supplied - should be YYYY-mm-ddTHH:MM:SS+zz:zz"⟩]
      | some e =>
        (match start with
         | some t =>
           if e = t then [⟨"Request's end date is the same as the start date"⟩]
           else if e < t then [⟨"Request's end date is before the start date"⟩]
           else []
         | none => []) ++
        (if e < now then [⟨"Request's end date is in the past"⟩] else [])

/-- Function `RequestValidator.validate_dlc_override_request`
(`request_validator.py` lines 55-148), with the current instant `now`
passed explicitly.  An entirely empty request dict short-circuits. -/
def validate_dlc_override_request (request : OverrideRequest)
    (override_duration now : Int) : List ValidationError :=
  if request = ⟨none, none, none, none, none⟩ then [⟨"Request is empty"⟩]
  else
    site_errors request ++ switch_errors request ++ status_errors request ++
      (start_errors request override_duration now).1 ++
      end_errors request (start_errors request override_duration now).2 now

/-!
## The tracker store: `tracker_utils.py`

Header items live at key `(REQ#cid, METADATA#cid)`, i.e. they are keyed
by the correlation id; stage ("detail") items live at `(REQ#cid,
STAGES#n)`, i.e. they are keyed by the pair `(cid, n)`.  `put_item`
replaces the item with the same key.  Instants are integers; Python
truthiness of the optional arguments follows the conventions in the file
header (`if serial_no:` is false for `None` *and* for the empty string,
`if policy_id:` is false for `None` and `0`, datetimes are always
truthy).
-/

/-- Python truthiness of an optional string. -/
def truthyStr (o : Option String) : Bool :=
  match o with
  | none => false
  | some s => s ≠ ""

/-- Python truthiness of an optional integer. -/
def truthyInt (o : Option Int) : Bool :=
  match o with
  | none => false
  | some n => n ≠ 0

/-- The tracker header item, as written by `create_tracker` and mutated
by `update_header_record`.  `crrltnId`, `site`, `subId`, `svcName`,
`noStages`, `currentStg`, `createDt`, `updateDt` and the `overrdValue`
key are always present; the remaining attributes may be absent. -/
structure HeaderRec where
  crrltnId : String
  site : String
  subId : String
  /-- Key always written, but its value may be Python `None`. -/
  overrdValue : Option String
  svcName : String
  noStages : Nat
  currentStg : Stage
  createDt : Int
  updateDt : Int
  mtrSrlNo : Option String
  rqstStrtDt : Option Int
  rqstEndDt : Option Int
  plcyId : Option Int
  plcyName : Option String
  extnddBy : Option String
  extnds : Option String
  original_start_datetime : Option Int
  group_id : Option String
  deriving DecidableEq, Repr

/-- The tracker stage ("detail") item, as written by
`add_tracker_detail`. -/
structure DetailRec where
  crrltnId : String
  site : String
  subId : String
  mtrSrlNo : Option String
  overrdValue : Option String
  stg : Nat
  stgName : Stage
  createDt : Int
  updateDt : Int
  message : Option String
  plcyId : Option Int
  plcyName : Option String
  rqstStrtDt : Option Int
  rqstEndDt : Option Int
  extnddBy : Option String
  extnds : Option String
  deriving DecidableEq, Repr

/-- The request-tracker DynamoDB table: headers keyed by correlation id,
stage records keyed by `(correlation id, stage number)`. -/
structure TrackerState where
  headers : List (String × HeaderRec)
  details : List ((String × Nat) × DetailRec)
  deriving DecidableEq, Repr

/-- Function `get_header_record` (`tracker_utils.py` lines 237-254): a `get_item`
on the header key; `None` when absent. -/
def get_header_record (st : TrackerState) (correlation_id : String) :
    Option HeaderRec :=
  (st.headers.find? (fun p => p.1 = correlation_id)).map (·.2)

/-- A `put_item` on a header key: replaces any item with the same key. -/
def putHeader (st : TrackerState) (correlation_id : String)
    (h : HeaderRec) : TrackerState :=
  { st with
    headers := (correlation_id, h) ::
      st.headers.filter (fun p => p.1 ≠ correlation_id) }

/-- A `put_item` on a stage-record key. -/
def putDetail (st : TrackerState) (correlation_id : String) (stg_no : Nat)
    (d : DetailRec) : TrackerState :=
  { st with
    details := ((correlation_id, stg_no), d) ::
      st.details.filter (fun p => p.1 ≠ (correlation_id, stg_no)) }

/-- Function `add_tracker_detail` (`tracker_utils.py` lines 532-619): writes one
stage record; the optional attributes are stored only when the
corresponding argument is truthy. -/
def add_tracker_detail (st : TrackerState) (correlation_id sub_id request_site : String)
    (stg_no : Nat) (stage : Stage) (event_datetime : Int) (message : Option String)
    (serial_no : Option String) (override : Option String)
    (request_start_date request_end_date : Option Int)
    (policy_id : Option Int) (policy_name : Option String)
    (extended_by extends_arg : Option String) : TrackerState :=
  putDetail st correlation_id stg_no
    { crrltnId := correlation_id
      site := request_site
      subId := sub_id
      mtrSrlNo := serial_no
      overrdValue := override
      stg := stg_no
      stgName := stage
      createDt := event_datetime
      updateDt := event_datetime
      message := if truthyStr message then message else none
      plcyId := if truthyInt policy_id then policy_id else none
      plcyName := if truthyStr policy_name then policy_name else none
      rqstStrtDt := request_start_date
      rqstEndDt := request_end_date
      extnddBy := if truthyStr extended_by then extended_by else none
      extnds := if truthyStr extends_arg then extends_arg else none }

/-- Function `create_tracker` (`tracker_utils.py` lines 150-234): an
*unconditional* `put_item` of the header (there is no
`ConditionExpression`, so an existing header with the same correlation id
is silently replaced), followed by `add_tracker_detail` for stage record
number 1 in stage `RECEIVED`. -/
def create_tracker (st : TrackerState) (correlation_id sub_id request_site : String)
    (serial_no : Option String) (request_start_date request_end_date : Option Int)
    (override : Option String) (group_id : Option String) (now : Int) :
    TrackerState :=
  let st' := putHeader st correlation_id
    { crrltnId := correlation_id
      site := request_site
      subId := sub_id
      overrdValue := override
      svcName := "load_control"
      noStages := 1
      currentStg := Stage.RECEIVED
      createDt := now
      updateDt := now
      mtrSrlNo := if truthyStr serial_no then serial_no else none
      rqstStrtDt := request_start_date
      rqstEndDt := request_end_date
      plcyId := none
      plcyName := none
      extnddBy := none
      extnds := none
      original_start_datetime := none
      group_id := if truthyStr group_id then group_id else none }
  add_tracker_detail st' correlation_id sub_id request_site 1 Stage.RECEIVED
    now (some "") serial_no override request_start_date request_end_date
    none none none none

/-- Function `update_header_record` (`tracker_utils.py` lines 334-450):
`update_item` with `ConditionExpression="attribute_exists(PK) AND
attribute_exists(SK)"` — it fails when the header item is absent;
otherwise it sets `currentStg`, `noStages` and `updateDt`, and each
optional attribute only when the corresponding argument is truthy. -/
def update_header_record (st : TrackerState) (correlation_id : String)
    (new_stg_no : Nat) (stage : Stage) (event_datetime : Int)
    (policy_id : Option Int) (policy_name : Option String)
    (request_start_date request_end_date : Option Int)
    (extended_by extends_arg : Option String)
    (original_start_datetime : Option Int) : Except String TrackerState :=
  match get_header_record st correlation_id with
  | none => .error "ConditionalCheckFailedException"
  | some h =>
    .ok (putHeader st correlation_id
      { h with
        currentStg := stage
        noStages := new_stg_no
        updateDt := event_datetime
        plcyId := if truthyInt policy_id then policy_id else h.plcyId
        plcyName := if truthyStr policy_name then policy_name else h.plcyName
        rqstStrtDt := if request_start_date.isSome then request_start_date
          else h.rqstStrtDt
        rqstEndDt := if request_end_date.isSome then request_end_date
          else h.rqstEndDt
        extnddBy := if truthyStr extended_by then extended_by else h.extnddBy
        extnds := if truthyStr extends_arg then extends_arg else h.extnds
        original_start_datetime := if original_start_datetime.isSome then
          original_start_datetime else h.original_start_datetime })

/-- Function `update_tracker` (`tracker_utils.py` lines 453-529): reads the header
(raising `TrackerException` when it is absent), reads `subId`, `site`,
`mtrSrlNo` and `overrdValue` from it — the subscript access
`header_record["mtrSrlNo"]` raises `KeyError` when that attribute was
never stored — computes `new_stg_no = noStages + 1`, updates the header
and appends the next stage record. -/
def update_tracker (st : TrackerState) (correlation_id : String) (stage : Stage)
    (event_datetime : Int) (message : Option String)
    (policy_id : Option Int) (policy_name : Option String)
    (request_start_date request_end_date : Option Int)
    (extended_by extends_arg : Option String)
    (original_start_datetime : Option Int) : Except String TrackerState :=
  match get_header_record st correlation_id with
  | none =>
    .error ("Could not find DLC tracker 'header' with correlation id: '"
      ++ correlation_id ++ "'.")
  | some h =>
    match h.mtrSrlNo with
    | none => .error "KeyError: 'mtrSrlNo'"
    | some serial =>
      let new_stg_no := h.noStages + 1
      (update_header_record st correlation_id new_stg_no stage event_datetime
          policy_id policy_name request_start_date request_end_date
          extended_by extends_arg original_start_datetime).map
        (fun st' =>
          add_tracker_detail st' correlation_id h.subId h.site new_stg_no
            stage event_datetime message (some serial) h.overrdValue
            request_start_date request_end_date policy_id policy_name
            extended_by extends_arg)

/-- Function `get_terminal_request` (`tracker_utils.py` lines 865-905):
walks the `extnds` back-chain from the supplied header record until a
record with no `extnds` attribute is reached, raising when a link points
to a missing record.  The Python `while True` loop has no termination
guard (the chain is acyclic by construction); the embedding carries an
explicit `fuel` bound and reports exhaustion as an error. -/
def get_terminal_request (st : TrackerState) :
    Nat → HeaderRec → Except String HeaderRec
  | 0, _ => .error "fuel exhausted walking the extends chain"
  | fuel + 1, req =>
    match req.extnds with
    | none => .ok req
    | some correlation_id =>
      match get_header_record st correlation_id with
      | some item => get_terminal_request st fuel item
      | none =>
        .error ("Correlation id " ++ correlation_id ++
          " not found when getting terminal request")

/-!
## Same-direction contiguous extension: `extend_policy`
(`dlc_override_statemachine_fn.py` lines 316-390)

`extend_policy` receives the contiguous-request dict assembled by the
contiguity query: the fields of the already-deployed neighbour record
(projected as `overrdValue, original_start_datetime, rqstStrtDt,
rqstEndDt, crrltnId, mtrSrlNo`) merged with the new request fields
(`correlation_id, start_datetime, end_datetime, status,
switch_addresses, site`).  It calls the head-end `replace` operation and
then, per member, performs the tracker updates.  We embed it as a pure
function from the input dict and the head-end response to the
`replace` call it issues plus the ordered trace of `update_tracker`
calls it performs.
-/

/-- The head-end response to a `create`/`replace` policy call. -/
structure PolicyResponse where
  statusCode : Int
  message : String
  policyID : Int
  deriving DecidableEq, Repr

/-- The contiguous-request dict received by `extend_policy`: neighbour
header fields merged with the new request fields. -/
structure ContiguousRequest where
  /-- Neighbour record request start (`rqstStrtDt`). -/
  rqstStrtDt : Int
  /-- Neighbour record `original_start_datetime`. -/
  original_start_datetime : Int
  /-- Neighbour record request end (`rqstEndDt`). -/
  rqstEndDt : Int
  /-- Neighbour correlation id (`crrltnId`). -/
  crrltnId : String
  /-- New request correlation id. -/
  correlation_id : String
  /-- New request start. -/
  start_datetime : Int
  /-- New request end. -/
  end_datetime : Int
  /-- New request status (`"ON"` / `"OFF"`). -/
  status : String
  switch_addresses : String
  site : String
  deriving DecidableEq, Repr

/-- Arguments of the `replace_lc_override_schedule_policy` call made by
`extend_policy`. -/
structure ReplaceCall where
  meter_serials : String
  start_datetime : Int
  turn_off : Bool
  duration : Int
  deriving DecidableEq, Repr

/-- One `update_tracker` invocation (the arguments that the state-machine
code passes). -/
structure UpdateCall where
  correlation_id : String
  stage : Stage
  message : Option String := none
  policy_id : Option Int := none
  policy_name : Option String := none
  request_start_date : Option Int := none
  request_end_date : Option Int := none
  extended_by : Option String := none
  extends_arg : Option String := none
  original_start_datetime : Option Int := none
  deriving DecidableEq, Repr

/-- Function `extend_policy`: the start passed to the head-end `replace`
is `request["rqstStrtDt"]` — the *neighbour record's* request start —
and the duration is `int((new_end − that start).total_seconds() / 60)`
minutes (`Int.div` truncates toward zero like Python `int()`).  On a
`200` response it updates the neighbour to `EXTENDED_BY`, then the new
request to `EXTENDS`, then the new request to `POLICY_EXTENDED`;
otherwise it declines the new request. -/
def extend_policy (request : ContiguousRequest) (response : PolicyResponse)
    (policy_name : String) : ReplaceCall × List UpdateCall :=
  let terminal_start := request.rqstStrtDt
  let new_end := request.end_datetime
  let duration := Int.tdiv (new_end - terminal_start) 60
  let turn_off := if request.status = "ON" then false else true
  let call : ReplaceCall :=
    ⟨request.switch_addresses, terminal_start, turn_off, duration⟩
  let updates : List UpdateCall :=
    if response.statusCode = 200 then
      [{ correlation_id := request.crrltnId
         stage := Stage.EXTENDED_BY
         message := some ("Request " ++ request.crrltnId ++
           " has been extended by request " ++ request.correlation_id)
         extended_by := some request.correlation_id },
       { correlation_id := request.correlation_id
         stage := Stage.EXTENDS
         message := some ("Request " ++ request.correlation_id ++
           " extends request " ++ request.crrltnId)
         request_start_date := some request.start_datetime
         request_end_date := some request.end_datetime
         extends_arg := some request.crrltnId
         original_start_datetime := some request.original_start_datetime },
       { correlation_id := request.correlation_id
         stage := Stage.POLICY_EXTENDED
         message := some response.message
         policy_name := some policy_name
         policy_id := some response.policyID }]
    else
      [{ correlation_id := request.correlation_id
         stage := Stage.DECLINED
         message := some response.message
         policy_name := some policy_name }]
  (call, updates)

/-!
## Cancellation endpoint: `process_request`
(`dlc_cancel_override_apigw_fn.py` lines 118-229)

The subscription registry is external; its lookup result is passed in as
an `Option` (`none` = `validate_subscription` returned errors).  The
tracker header for the queried correlation id is read with
`get_header_record`.
-/

/-- The subscription-registry record fields the cancel endpoint reads. -/
structure Subscription where
  subName : String
  deriving DecidableEq, Repr

/-- Constant `IN_PROGRESS_STAGES` of `dlc_cancel_override_apigw_fn.py`
(lines 26-28). -/
def IN_PROGRESS_STAGES : List Stage :=
  [Stage.RECEIVED, Stage.QUEUED, Stage.POLICY_CREATED,
   Stage.POLICY_DEPLOYED, Stage.POLICY_EXTENDED,
   Stage.EXTENDED_BY, Stage.EXTENDS, Stage.DLC_OVERRIDE_STARTED]

/-- Outcome of the cancel endpoint: HTTP 200 with the cancel workflow
started, HTTP 400 with no workflow, or HTTP 500 (unexpected exception)
with no workflow. -/
inductive CancelOutcome where
  | accepted (correlation_id : String)
  | badRequest (message : String)
  | internalError (message : String)
  deriving DecidableEq, Repr

/-- Function `process_request`: the validation chain of the cancel
endpoint.  `subscription` is the registry record for the path
subscription id (`none` when `validate_subscription` reported errors);
`subscriber` and `correlation_id` come from the query string; `now` is
the current instant.  Note `datetime.fromisoformat(None)` raises
`TypeError` when the header has no `rqstEndDt`, which the generic
handler maps to HTTP 500; and the already-finished check is
`end < now` — an end date *equal* to `now` passes. -/
def cancel_process_request (st : TrackerState)
    (subscription : Option Subscription)
    (provided_subscription_id correlation_id subscriber : String)
    (now : Int) : CancelOutcome :=
  match subscription with
  | none =>
    .badRequest ("Subscription id " ++ provided_subscription_id ++
      " is not valid")
  | some sub =>
    if sub.subName ≠ subscriber then
      .badRequest ("Given subscriber " ++ subscriber ++
        " does not own the subscription " ++ provided_subscription_id)
    else
      match get_header_record st correlation_id with
      | none =>
        .badRequest ("Correlation id " ++ correlation_id ++ " not found")
      | some h =>
        if truthyStr h.group_id then
          .badRequest ("Correlation id " ++ correlation_id ++
            " is a part of group dispatch and cannot be canceled")
        else if provided_subscription_id ≠ h.subId then
          .badRequest ("Subscription id " ++ provided_subscription_id ++
            " does not match the subscription id of the override request to cancel")
        else if h.currentStg ∉ IN_PROGRESS_STAGES then
          .badRequest "cannot cancel from this state"
        else
          match h.rqstEndDt with
          | none => .internalError "TypeError: fromisoformat(None)"
          | some endDt =>
            if endDt < now then
              .badRequest
                "Request given has an end date in the past so is already completed"
            else .accepted correlation_id

/-!
## Throttled dispatch

### Batch rate-limit sleep (`dlc_override_throttle_fn.py` lines 397-417)

After submitting a received batch the handler computes
`expected_runtime = int(round(len(records) / RATE_LIMIT_CALLS *
RATE_LIMIT_PERIOD))` and, when the elapsed wall time is below it, calls
`time.sleep(RATE_LIMIT_PERIOD - processing_time)`.  Python's `round`
rounds half to even; the float expression is idealised as the exact
rational.
-/

/-- Default `RATE_LIMIT_CALLS` (env default 1000). -/
def RATE_LIMIT_CALLS : Nat := 1000

/-- Default `RATE_LIMIT_PERIOD` in seconds (env default 60). -/
def RATE_LIMIT_PERIOD_SEC : Nat := 60

/-- Python banker's rounding (`round`) of the rational `num / den`,
for `den > 0`. -/
def pyRound (num den : Nat) : Nat :=
  let q := num / den
  let r := num % den
  if 2 * r < den then q
  else if den < 2 * r then q + 1
  else if q % 2 = 0 then q else q + 1

/-- Expression `int(round(len(event["Records"]) / RATE_LIMIT_CALLS *
RATE_LIMIT_PERIOD_SEC))`. -/
def expected_runtime (num_records : Nat) : Nat :=
  pyRound (num_records * RATE_LIMIT_PERIOD_SEC) RATE_LIMIT_CALLS

/-- The sleep performed at the end of `lambda_handler`: `some d` when
`time.sleep(d)` is called with `d = RATE_LIMIT_PERIOD - processing_time`
(an `Int`: a negative argument would make `time.sleep` raise), `none`
when no sleep happens. -/
def batch_sleep (num_records processing_time : Nat) : Option Int :=
  if processing_time < expected_runtime num_records then
    some ((RATE_LIMIT_PERIOD_SEC : Int) - (processing_time : Int))
  else none

/-!
### Size-capped dispatch chunks: `dispatching_records`
(`tracker_utils.py` lines 908-949)

`dispatching_records` slices the parallel member lists of a grouped
request (`site_switch_crl_id`, `site`, `switch_addresses`,
`correlation_id`) with the same index arithmetic; we embed the slicing of
one such list.  `mx` is `MAX_DISPATCH_COUNT` (env default 100).
-/

/-- Python slice `l[a:b]` for `0 ≤ a ≤ b`. -/
def pySlice (l : List α) (a b : Nat) : List α :=
  (l.drop a).take (b - a)

/-- The chunking performed by `dispatching_records`: the `i`-th emitted
unit carries `records[i*mx : i*mx + offset]` where `offset` is `mx`
except on the last iteration when `f_offset` is non-zero. -/
def dispatching_chunks (mx : Nat) (l : List α) : List (List α) :=
  let record_len := l.length
  let record_cnt0 := record_len / mx
  let extra_data_cnt := record_len % mx
  let record_cnt1 := if record_cnt0 > 1 then record_cnt0 else 1
  let min_dispatch_count := mx / 2
  let f_offset :=
    if extra_data_cnt ≤ min_dispatch_count then mx + extra_data_cnt else 0
  let record_cnt :=
    if min_dispatch_count < extra_data_cnt ∧ record_cnt1 ≥ 1 then
      record_cnt1 + 1
    else record_cnt1
  (List.range record_cnt).map (fun i =>
    let offset := if i = record_cnt - 1 ∧ f_offset ≠ 0 then f_offset else mx
    pySlice l (i * mx) (i * mx + offset))

/-- The value of the loop-local `f_offset` of `dispatching_records` as a
function of `MAX_DISPATCH_COUNT` and the record count: `mx + n % mx` when
`n % mx ≤ mx / 2`, otherwise `0`. -/
def dispatchFoff (mx n : Nat) : Nat :=
  if n % mx ≤ mx / 2 then mx + n % mx else 0

/-- The value of the loop bound `record_cnt` of `dispatching_records` as
a function of `MAX_DISPATCH_COUNT` and the record count. -/
def dispatchCnt (mx n : Nat) : Nat :=
  let record_cnt1 := if n / mx > 1 then n / mx else 1
  if mx / 2 < n % mx ∧ record_cnt1 ≥ 1 then record_cnt1 + 1 else record_cnt1

/-- Claim C5 as stated: the chunks concatenate back to the input, every
chunk is non-empty, every chunk but the last is capped at `mx`, and the
trailing remainder is folded into the preceding chunk exactly when it is
smaller than `mx / 2` — never when it is at least `mx / 2` (so with a
remainder `≥ mx / 2` no chunk may exceed `mx`). -/
def dispatchClaim (mx : Nat) (l : List Nat) : Prop :=
  let C := dispatching_chunks mx l
  C.flatten = l
  ∧ (∀ c ∈ C, c ≠ [])
  ∧ (∀ c ∈ C.dropLast, c.length ≤ mx)
  ∧ (¬ l.length % mx < mx / 2 → ∀ c ∈ C, c.length ≤ mx)

instance (mx : Nat) (l : List Nat) : Decidable (dispatchClaim mx l) := by
  unfold dispatchClaim; infer_instance

/-!
## Meter events: `BaseMeterEvent.as_camelcase_dict`
(`BaseMeterEvent.py` lines 37-68)

The payload is a dict with string keys; its values (enum members or
strings) are modelled by the strings they serialise to.  `_add_field`
adds a key only when the value is Python-truthy, i.e. a non-`None`,
non-empty value.
-/

/-- The `EventType` enumeration of `src/model/enums.py`. -/
inductive EventType where
  | LOAD_CONTROL
  | BOOST_BUTTON
  deriving DecidableEq, Repr

/-- String value of an `EventType` member. -/
def EventType.value : EventType → String
  | .LOAD_CONTROL => "LOAD_CONTROL"
  | .BOOST_BUTTON => "BOOST_BUTTON"

/-- String value of a `Stage` member. -/
def Stage.value : Stage → String
  | .RECEIVED => "RECEIVED"
  | .FAILED => "FAILED"
  | .DECLINED => "DECLINED"
  | .QUEUED => "QUEUED"
  | .POLICY_CREATED => "POLICY_CREATED"
  | .POLICY_EXTENDED => "POLICY_EXTENDED"
  | .POLICY_DEPLOYED => "POLICY_DEPLOYED"
  | .DLC_OVERRIDE_STARTED => "DLC_OVERRIDE_STARTED"
  | .DLC_OVERRIDE_FINISHED => "DLC_OVERRIDE_FINISHED"
  | .DLC_OVERRIDE_FAILURE => "DLC_OVERRIDE_FAILURE"
  | .CANCELLED => "CANCELLED"
  | .EXTENDED_BY => "EXTENDED_BY"
  | .EXTENDS => "EXTENDS"

/-- The `BaseMeterEvent` dataclass fields. -/
structure BaseMeterEvent where
  event_type : EventType
  event_description : String
  meter_serial_number : String
  event_datetime_str : String
  event_value : Option String := none
  milestone : Option Stage := none
  subscription_id : Option String := none
  correlation_id : Option String := none
  site : Option String := none
  register_id : Option String := none
  tracked : Option Bool := none
  headend : Option String := none
  headend_id : Option String := none
  deriving DecidableEq, Repr

/-- Method `_add_field`: only add a field when the value is truthy
(`none` models Python `None`, `some ""` an empty string — both falsy). -/
def addField (payload : List (String × String)) (field : String)
    (value : Option String) : List (String × String) :=
  match value with
  | none => payload
  | some s => if s = "" then payload else payload ++ [(field, s)]

/-- The ten `(key, value)` pairs `as_camelcase_dict` offers to
`_add_field`, in source order; enum-valued fields contribute their string
values (always non-empty for a present enum member). -/
def cameldict_fields (e : BaseMeterEvent) : List (String × Option String) :=
  [("eventType", some e.event_type.value),
   ("eventValue", e.event_value),
   ("eventDescription", some e.event_description),
   ("milestone", e.milestone.map Stage.value),
   ("subscriptionId", e.subscription_id),
   ("correlationId", e.correlation_id),
   ("meterSerialNumber", some e.meter_serial_number),
   ("site", e.site),
   ("registerId", e.register_id),
   ("eventDatetime", some e.event_datetime_str)]

/-- Method `as_camelcase_dict`: feed the ten fields through `_add_field`
in order. -/
def as_camelcase_dict (e : BaseMeterEvent) : List (String × String) :=
  (cameldict_fields e).foldl (fun payload kv => addField payload kv.1 kv.2) []

/-!
## Concrete example data

A two-element extension chain used to analyse the extension logic:
request `A` covers `[800, 900]` and has been extended by request `B`
covering `[900, 1000]` (`B.extnds = A`, `A.extnddBy = B`), so `A` is the
terminal request of the chain.  A new same-direction request `C` over
`[1000, 1100]` finds `B` as its contiguous neighbour.
-/

/-- Header of the terminal request `A` (`[800, 900]`, extends nothing). -/
def chainHeaderA : HeaderRec :=
  { crrltnId := "A", site := "SITE-1", subId := "SUB-1"
    overrdValue := some "ON", svcName := "load_control"
    noStages := 4, currentStg := Stage.EXTENDED_BY
    createDt := 0, updateDt := 0, mtrSrlNo := some "MTR-1"
    rqstStrtDt := some 800, rqstEndDt := some 900
    plcyId := some 77, plcyName := some "PN-A"
    extnddBy := some "B", extnds := none
    original_start_datetime := some 800, group_id := none }

/-- Header of request `B` (`[900, 1000]`, extends `A`). -/
def chainHeaderB : HeaderRec :=
  { crrltnId := "B", site := "SITE-1", subId := "SUB-1"
    overrdValue := some "ON", svcName := "load_control"
    noStages := 6, currentStg := Stage.POLICY_DEPLOYED
    createDt := 0, updateDt := 0, mtrSrlNo := some "MTR-1"
    rqstStrtDt := some 900, rqstEndDt := some 1000
    plcyId := some 78, plcyName := some "PN-B"
    extnddBy := none, extnds := some "A"
    original_start_datetime := some 800, group_id := none }

/-- Tracker store holding the chain `A ← B`. -/
def chainStore : TrackerState :=
  ⟨[("A", chainHeaderA), ("B", chainHeaderB)], []⟩

/-- The contiguous-request dict assembled for the new request `C`
(`[1000, 1100]`, same direction) whose neighbour is `B`: the neighbour
record's fields (`rqstStrtDt = 900`, `original_start_datetime = 800`,
`rqstEndDt = 1000`, `crrltnId = "B"`) merged with the new request's
fields. -/
def chainContigRequest : ContiguousRequest :=
  { rqstStrtDt := 900, original_start_datetime := 800, rqstEndDt := 1000
    crrltnId := "B", correlation_id := "C"
    start_datetime := 1000, end_datetime := 1100
    status := "ON", switch_addresses := "MTR-1", site := "SITE-1" }

/-- A queued, ungrouped request whose end date is exactly the instant at
which its cancellation is attempted. -/
def cancelHeaderAtNow : HeaderRec :=
  { crrltnId := "CID-9", site := "SITE-1", subId := "SUB-9"
    overrdValue := some "ON", svcName := "load_control"
    noStages := 2, currentStg := Stage.QUEUED
    createDt := 0, updateDt := 0, mtrSrlNo := some "MTR-1"
    rqstStrtDt := some 500, rqstEndDt := some 1000
    plcyId := none, plcyName := none
    extnddBy := none, extnds := none
    original_start_datetime := some 500, group_id := none }

/-- Store holding only `cancelHeaderAtNow`. -/
def cancelStoreAtNow : TrackerState :=
  ⟨[("CID-9", cancelHeaderAtNow)], []⟩

/-- A meter event whose `site` field is present but holds the empty
string. -/
def emptySiteEvent : BaseMeterEvent :=
  { event_type := EventType.LOAD_CONTROL
    event_description := "Request moved to stage QUEUED"
    meter_serial_number := "MTR-1"
    event_datetime_str := "2022-01-01T00:00:00+00:00"
    event_value := none
    milestone := some Stage.QUEUED
    subscription_id := some "SUB-1"
    correlation_id := some "CID-1"
    site := some ""
    register_id := none }

/-!
# Theorems
-/

/-- C1, counterexample: with the proposed window `[10,12]` and candidate
list `[(11,13), (10,12)]` the scan stops at the overlapping first
candidate and returns the overlap error, even though the second candidate
is an exact duplicate of the proposed window — the claim, which requires
the duplicate error whenever some candidate duplicates `[s,e]`, is false. -/
theorem C1_duration_claim_counterexample :
    ¬ durationClaim 10 12 [(11, 13), (10, 12)] := by
  decide

/-- C1, amended: the outcome of the temporal classification is decided by
the *first* candidate, in scan order, that is not skipped as contiguous:
the duplicate error if that candidate equals `[s,e]` exactly, the overlap
error otherwise, and no error when every candidate is skipped; at most one
error is ever surfaced. -/
theorem C1_duration_scan_first_decides (s e : Int) (items : List (Int × Int)) :
    validate_request_duration_scan s e items =
      (match items.find? (fun it => !(decide (isContiguousSkip s e it))) with
       | none => []
       | some it =>
         if it.1 = s ∧ it.2 = e then [⟨MSG_DUPLICATE⟩] else [⟨MSG_OVERLAP⟩])
    ∧ (validate_request_duration_scan s e items).length ≤ 1 := by
  have cons_eq : ∀ (rs re : Int) (tl : List (Int × Int)),
      validate_request_duration_scan s e ((rs, re) :: tl) =
        if rs = s ∧ re = e then [⟨MSG_DUPLICATE⟩]
        else if rs = e then validate_request_duration_scan s e tl
        else if re = s then validate_request_duration_scan s e tl
        else [⟨MSG_OVERLAP⟩] := fun _ _ _ => rfl
  induction items with
  | nil => exact ⟨rfl, by simp [validate_request_duration_scan]⟩
  | cons hd tl ih =>
    obtain ⟨rs, re⟩ := hd
    constructor
    · by_cases hdup : rs = s ∧ re = e
      · rw [cons_eq, if_pos hdup]
        obtain ⟨h1, h2⟩ := hdup
        subst h1; subst h2
        simp [List.find?, isContiguousSkip]
      · by_cases hc1 : rs = e
        · have hskip : isContiguousSkip s e (rs, re) := ⟨hdup, Or.inl hc1⟩
          rw [cons_eq, if_neg hdup, if_pos hc1, ih.1]
          simp [List.find?, hskip]
        · by_cases hc2 : re = s
          · have hskip : isContiguousSkip s e (rs, re) := ⟨hdup, Or.inr hc2⟩
            rw [cons_eq, if_neg hdup, if_neg hc1, if_pos hc2, ih.1]
            simp [List.find?, hskip]
          · have hrel : ¬ isContiguousSkip s e (rs, re) := by
              intro h
              rcases h.2 with h' | h' <;> [exact hc1 h'; exact hc2 h']
            rw [cons_eq, if_neg hdup, if_neg hc1, if_neg hc2]
            simp [List.find?, hrel, hdup]
    · by_cases hdup : rs = s ∧ re = e
      · rw [cons_eq, if_pos hdup]; simp
      · by_cases hc1 : rs = e
        · rw [cons_eq, if_neg hdup, if_pos hc1]; exact ih.2
        · by_cases hc2 : re = s
          · rw [cons_eq, if_neg hdup, if_neg hc1, if_pos hc2]; exact ih.2
          · rw [cons_eq, if_neg hdup, if_neg hc1, if_neg hc2]; simp

theorem mem_site_errors (request : OverrideRequest) (v : ValidationError)
    (h : v ∈ site_errors request) : v = ⟨"Site details required"⟩ := by
  unfold site_errors at h
  cases hs : request.site with
  | none => rw [hs] at h; simpa using h
  | some s =>
    rw [hs] at h
    by_cases h0 : s = "" <;> simp [h0] at h
    simp [h]

theorem mem_switch_errors (request : OverrideRequest) (v : ValidationError)
    (h : v ∈ switch_errors request) :
    v = ⟨"Switch addresses (Meter Details) required"⟩ ∨
      v = ⟨"Multiple switch addresses supplied - expected one"⟩ := by
  unfold switch_errors at h
  cases hs : request.switch_addresses with
  | none => rw [hs] at h; simp at h; exact Or.inl h
  | some sw =>
    rw [hs] at h
    cases sw with
    | str s =>
      by_cases h0 : s = "" <;> simp [h0] at h
      exact Or.inl h
    | list l =>
      by_cases h0 : l = []
      · simp [h0] at h; exact Or.inl h
      · by_cases h1 : l.length > 1 <;> simp [h0, h1] at h
        exact Or.inr h

theorem mem_status_errors (request : OverrideRequest) (v : ValidationError)
    (h : v ∈ status_errors request) :
    v = ⟨"DLC status required"⟩ ∨
      v = ⟨"DLC status should be either ON or OFF"⟩ := by
  unfold status_errors at h
  cases hs : request.status with
  | none => rw [hs] at h; simp at h; exact Or.inl h
  | some st =>
    rw [hs] at h
    by_cases h0 : st = "ON" ∨ st = "OFF" <;> simp [h0] at h
    exact Or.inr h

theorem mem_start_errors (request : OverrideRequest)
    (override_duration now : Int) (v : ValidationError)
    (h : v ∈ (start_errors request override_duration now).1) :
    v = ⟨"Invalid start datetime format supplied - should be YYYY-mm-ddTHH:MM:SS+zz:zz"⟩ ∨
      v = ⟨"No end date supplied: request's derived end date would be in the past"⟩ := by
  unfold start_errors at h
  cases hs : request.start_datetime with
  | none => rw [hs] at h; simp at h
  | some p =>
    rw [hs] at h
    cases p with
    | none => simp at h; exact Or.inl h
    | some t =>
      by_cases h0 : request.end_datetime = none
      · by_cases h1 : t + 60 * override_duration < now <;>
          simp [h0, h1] at h
        exact Or.inr h
      · simp [h0] at h

/-- C7, counterexample: a well-formed request whose explicit end date
equals the current instant (`now = 1000`) passes the syntactic validation
with no errors, and so does a request with no end date whose derived end
(`start + 30 minutes`) equals `now` — the claim, which requires such
requests to be rejected, is false: only `end < now` is rejected. -/
theorem C7_end_equals_now_counterexample :
    validate_dlc_override_request
      ⟨some "NMI0000001", some (.str "LG000001/E3"), some "ON",
        some (some 400), some (some 1000)⟩ 30 1000 = [] ∧
    validate_dlc_override_request
      ⟨some "NMI0000001", some (.str "LG000001/E3"), some "ON",
        some (some (1000 - 60 * 30)), none⟩ 30 1000 = [] := by
  constructor <;> rfl

/-- C7, amended: for a request that supplies a start date and an explicit
end date parsing to the instant `e`, the syntactic validation reports the
past-end-date error exactly when `e < now`; an end date equal to `now` at
accept time is *not* rejected (the check is `end < now`, not `end ≤ now`). -/
theorem end_errors_explicit_eq (fsite : Option String)
    (fsw : Option SwitchAddresses) (fstat : Option String)
    (ps : Option Int) (e : Int) (start : Option Int) (now : Int) :
    end_errors ⟨fsite, fsw, fstat, some ps, some (some e)⟩ start now =
      (match start with
       | some t =>
         if e = t then [⟨"Request's end date is the same as the start date"⟩]
         else if e < t then [⟨"Request's end date is before the start date"⟩]
         else []
       | none => []) ++
      (if e < now then [⟨"Request's end date is in the past"⟩] else []) := rfl

theorem C7_end_past_check_is_strict (request : OverrideRequest)
    (override_duration now e : Int) (ps : Option Int)
    (hs : request.start_datetime = some ps)
    (he : request.end_datetime = some (some e)) :
    ((⟨"Request's end date is in the past"⟩ : ValidationError) ∈
        validate_dlc_override_request request override_duration now)
      ↔ e < now := by
  obtain ⟨fsite, fsw, fstat, fstart, fend⟩ := request
  simp only at hs he
  subst hs; subst he
  have hne : (⟨fsite, fsw, fstat, some ps, some (some e)⟩ : OverrideRequest)
      ≠ ⟨none, none, none, none, none⟩ := by
    intro h
    exact Option.noConfusion (congrArg OverrideRequest.start_datetime h)
  set request : OverrideRequest := ⟨fsite, fsw, fstat, some ps, some (some e)⟩
  have hpast_end :
      ((⟨"Request's end date is in the past"⟩ : ValidationError) ∈
          end_errors request (start_errors request override_duration now).2 now)
        ↔ e < now := by
    rw [end_errors_explicit_eq]
    constructor
    · intro h
      rcases List.mem_append.mp h with h | h
      · cases hstart : (start_errors request override_duration now).2 with
        | none => rw [hstart] at h; simp at h
        | some t =>
          rw [hstart] at h
          by_cases h0 : e = t
          · simp [h0] at h
          · by_cases h1 : e < t <;> simp [h0, h1] at h
      · by_cases h2 : e < now
        · exact h2
        · rw [if_neg h2] at h; simp at h
    · intro h2
      exact List.mem_append.mpr (Or.inr (by rw [if_pos h2]; simp))
  unfold validate_dlc_override_request
  rw [if_neg hne]
  simp only [List.mem_append]
  constructor
  · intro h
    rcases h with ((((h | h) | h) | h) | h)
    · exact absurd (mem_site_errors request _ h) (by decide)
    · rcases mem_switch_errors request _ h with h' | h' <;>
        exact absurd h' (by decide)
    · rcases mem_status_errors request _ h with h' | h' <;>
        exact absurd h' (by decide)
    · rcases mem_start_errors request override_duration now _ h with h' | h' <;>
        exact absurd h' (by decide)
    · exact hpast_end.mp h
  · intro h2
    exact Or.inr (hpast_end.mpr h2)

/-- C7 witness: the amended theorem applied at a concrete request whose
explicit end date `900` lies before `now = 1000`. -/
theorem C7_end_past_check_is_strict_witness :
    ((⟨"Request's end date is in the past"⟩ : ValidationError) ∈
        validate_dlc_override_request
          ⟨some "NMI0000001", some (.str "LG000001/E3"), some "ON",
            some (some 400), some (some 900)⟩ 30 1000)
      ↔ (900 : Int) < 1000 :=
  C7_end_past_check_is_strict
    ⟨some "NMI0000001", some (.str "LG000001/E3"), some "ON",
      some (some 400), some (some 900)⟩ 30 1000 900 (some 400) rfl rfl

/-- C10: a request that supplies an `end_datetime` but no
`start_datetime` is always rejected with the dedicated error, even though
each of the two fields is individually optional. -/
theorem C10_end_without_start_rejected (request : OverrideRequest)
    (override_duration now : Int) (pe : Option Int)
    (hs : request.start_datetime = none)
    (he : request.end_datetime = some pe) :
    (⟨"Cannot have an end_datetime without a start_datetime"⟩ : ValidationError) ∈
      validate_dlc_override_request request override_duration now := by
  obtain ⟨fsite, fsw, fstat, fstart, fend⟩ := request
  simp only at hs he
  subst hs; subst he
  have hne : (⟨fsite, fsw, fstat, none, some pe⟩ : OverrideRequest)
      ≠ ⟨none, none, none, none, none⟩ := by
    intro h
    exact Option.noConfusion (congrArg OverrideRequest.end_datetime h)
  unfold validate_dlc_override_request
  rw [if_neg hne]
  refine List.mem_append.mpr (Or.inr ?_)
  have heq : end_errors ⟨fsite, fsw, fstat, none, some pe⟩
      (start_errors ⟨fsite, fsw, fstat, none, some pe⟩ override_duration now).2
      now = [⟨"Cannot have an end_datetime without a start_datetime"⟩] := rfl
  rw [heq]
  simp

/-- C10 witness: concrete request with an end date and no start date. -/
theorem C10_end_without_start_rejected_witness :
    (⟨"Cannot have an end_datetime without a start_datetime"⟩ : ValidationError) ∈
      validate_dlc_override_request
        ⟨some "NMI0000001", some (.str "LG000001/E3"), some "ON",
          none, some (some 2000)⟩ 30 1000 :=
  C10_end_without_start_rejected
    ⟨some "NMI0000001", some (.str "LG000001/E3"), some "ON",
      none, some (some 2000)⟩ 30 1000 (some 2000) rfl rfl

theorem find?_filter_of_imp (l : List α) (p q : α → Bool)
    (himp : ∀ x, p x = true → q x = true) :
    (l.filter q).find? p = l.find? p := by
  induction l with
  | nil => rfl
  | cons a l ih =>
    by_cases hq : q a
    · rw [List.filter_cons_of_pos hq]
      by_cases hp : p a
      · rw [List.find?_cons_of_pos _ hp, List.find?_cons_of_pos _ hp]
      · rw [List.find?_cons_of_neg _ (by simpa using hp),
            List.find?_cons_of_neg _ (by simpa using hp), ih]
    · have hp : ¬ p a = true := fun hpa => hq (himp a hpa)
      rw [List.filter_cons_of_neg (by simpa using hq), ih,
          List.find?_cons_of_neg _ (by simpa using hp)]

theorem get_header_record_putHeader_same (st : TrackerState) (cid : String)
    (h : HeaderRec) :
    get_header_record (putHeader st cid h) cid = some h := by
  simp only [get_header_record, putHeader]
  rw [List.find?_cons_of_pos _ (by simp)]
  rfl

theorem get_header_record_putHeader_other (st : TrackerState)
    (cid cid' : String) (h : HeaderRec) (hne : cid' ≠ cid) :
    get_header_record (putHeader st cid h) cid' = get_header_record st cid' := by
  simp only [get_header_record, putHeader]
  rw [List.find?_cons_of_neg _ (by simpa using Ne.symm hne),
      find?_filter_of_imp]
  intro x hx
  simp only [decide_eq_true_eq] at hx
  simp [hx, hne]

/-- C2, counterexample: `create_tracker` with no meter serial number (its
`serial_no` parameter defaults to `None`) writes a header without the
`mtrSrlNo` attribute; `update_tracker` on that correlation id then raises
`KeyError` on `header_record["mtrSrlNo"]` even though the header exists —
against the claim that whenever the header exists the update increments
the stage count and appends a stage record. -/
theorem C2_update_tracker_counterexample :
    (get_header_record
        (create_tracker ⟨[], []⟩ "CID-1" "SUB-1" "SITE-1" none none none
          (some "ON") none 100)
        "CID-1").isSome = true ∧
    update_tracker
        (create_tracker ⟨[], []⟩ "CID-1" "SUB-1" "SITE-1" none none none
          (some "ON") none 100)
        "CID-1" Stage.QUEUED 200 none none none none none none none none
      = .error "KeyError: 'mtrSrlNo'" :=
  ⟨rfl, rfl⟩

/-- C2, amended: `update_tracker` raises (performing no mutation) when no
header exists for the correlation id *or* when the header records no
meter serial number; when the header exists and has a serial number it
succeeds, increments the header's stage count by exactly one, sets the
header's current stage to the supplied stage, and appends exactly one
stage record keyed and numbered with the post-update stage count, leaving
every other correlation id's header untouched. -/
theorem C2_update_tracker_spec (st : TrackerState) (cid : String)
    (stage : Stage) (event_datetime : Int) (message : Option String)
    (policy_id : Option Int) (policy_name : Option String)
    (rsd red : Option Int) (extended_by extends_arg : Option String)
    (osd : Option Int) :
    (get_header_record st cid = none →
      update_tracker st cid stage event_datetime message policy_id
          policy_name rsd red extended_by extends_arg osd
        = .error ("Could not find DLC tracker 'header' with correlation id: '"
            ++ cid ++ "'."))
    ∧ (∀ h : HeaderRec, get_header_record st cid = some h →
        h.mtrSrlNo = none →
        update_tracker st cid stage event_datetime message policy_id
            policy_name rsd red extended_by extends_arg osd
          = .error "KeyError: 'mtrSrlNo'")
    ∧ (∀ (h : HeaderRec) (serial : String),
        get_header_record st cid = some h → h.mtrSrlNo = some serial →
        ∃ st', update_tracker st cid stage event_datetime message policy_id
            policy_name rsd red extended_by extends_arg osd = .ok st'
          ∧ (∃ h', get_header_record st' cid = some h'
              ∧ h'.noStages = h.noStages + 1 ∧ h'.currentStg = stage)
          ∧ (∃ d : DetailRec,
              st'.details = ((cid, h.noStages + 1), d) ::
                st.details.filter (fun p => p.1 ≠ (cid, h.noStages + 1))
              ∧ d.stg = h.noStages + 1 ∧ d.stgName = stage)
          ∧ (∀ cid', cid' ≠ cid →
              get_header_record st' cid' = get_header_record st cid')) := by
  refine ⟨fun h0 => ?_, fun h hh hser => ?_, fun h serial hh hser => ?_⟩
  · simp only [update_tracker, h0]
  · simp only [update_tracker, hh, hser]
  · simp only [update_tracker, hh, hser, update_header_record, Except.map]
    exact ⟨_, rfl,
      ⟨_, get_header_record_putHeader_same st cid _, rfl, rfl⟩,
      ⟨_, rfl, rfl, rfl⟩,
      fun cid' hne => get_header_record_putHeader_other st cid cid' _ hne⟩

/-- C2 witness: the success branch of the amended theorem applied to a
store holding one freshly created header (with a serial number). -/
theorem C2_update_tracker_spec_witness :
    ∃ st', update_tracker
        (create_tracker ⟨[], []⟩ "CID-1" "SUB-1" "SITE-1" (some "MTR-1")
          (some 500) (some 900) (some "ON") none 100)
        "CID-1" Stage.QUEUED 200 none none none (some 500) (some 900)
        none none (some 500) = .ok st'
      ∧ (∃ h', get_header_record st' "CID-1" = some h'
          ∧ h'.noStages = 1 + 1 ∧ h'.currentStg = Stage.QUEUED)
      ∧ (∃ d : DetailRec,
          st'.details = (("CID-1", 1 + 1), d) ::
            (create_tracker ⟨[], []⟩ "CID-1" "SUB-1" "SITE-1" (some "MTR-1")
              (some 500) (some 900) (some "ON") none 100).details.filter
              (fun p => p.1 ≠ ("CID-1", 1 + 1))
          ∧ d.stg = 1 + 1 ∧ d.stgName = Stage.QUEUED)
      ∧ (∀ cid', cid' ≠ "CID-1" →
          get_header_record st' cid'
            = get_header_record
                (create_tracker ⟨[], []⟩ "CID-1" "SUB-1" "SITE-1"
                  (some "MTR-1") (some 500) (some 900) (some "ON") none 100)
                cid') :=
  (C2_update_tracker_spec
      (create_tracker ⟨[], []⟩ "CID-1" "SUB-1" "SITE-1" (some "MTR-1")
        (some 500) (some 900) (some "ON") none 100)
      "CID-1" Stage.QUEUED 200 none none none (some 500) (some 900)
      none none (some 500)).2.2
    _ "MTR-1" rfl rfl

/-- C8, counterexample: with a header for `CID-1` already in the store
(stage `QUEUED`, stage count 3), `create_tracker` does *not* fail — its
header `put_item` carries no `ConditionExpression` — and the existing
header is replaced by a fresh `RECEIVED` header with stage count 1 and
the new subscription id. -/
theorem C8_create_tracker_counterexample :
    (get_header_record
        (⟨[("CID-1",
            ⟨"CID-1", "SITE-1", "SUB-1", some "ON", "load_control", 3,
              Stage.QUEUED, 50, 80, some "MTR-1", some 500, some 900,
              none, none, none, none, none, none⟩)], []⟩ : TrackerState)
        "CID-1").map (fun h => (h.currentStg, h.noStages, h.subId))
      = some (Stage.QUEUED, 3, "SUB-1") ∧
    (get_header_record
        (create_tracker
          (⟨[("CID-1",
              ⟨"CID-1", "SITE-1", "SUB-1", some "ON", "load_control", 3,
                Stage.QUEUED, 50, 80, some "MTR-1", some 500, some 900,
                none, none, none, none, none, none⟩)], []⟩ : TrackerState)
          "CID-1" "SUB-2" "SITE-1" (some "MTR-1") (some 600) (some 950)
          (some "OFF") none 200)
        "CID-1").map (fun h => (h.currentStg, h.noStages, h.subId))
      = some (Stage.RECEIVED, 1, "SUB-2") :=
  ⟨rfl, rfl⟩

/-- C8, amended: `create_tracker` never fails.  It writes (or, when a
header for the correlation id already exists, *overwrites*) the header
with current stage `RECEIVED` and stage count 1, and writes stage record
number 1 in stage `RECEIVED` (overwriting any record with that key);
headers of other correlation ids and stage records with other keys are
left unchanged. -/
theorem C8_create_tracker_spec (st : TrackerState)
    (cid sub_id request_site : String) (serial_no : Option String)
    (rsd red : Option Int) (override group_id : Option String) (now : Int) :
    (∃ h, get_header_record
          (create_tracker st cid sub_id request_site serial_no rsd red
            override group_id now) cid = some h
        ∧ h.currentStg = Stage.RECEIVED ∧ h.noStages = 1 ∧ h.subId = sub_id)
    ∧ ((create_tracker st cid sub_id request_site serial_no rsd red
            override group_id now).details.find?
          (fun p => p.1 = (cid, 1))).map (fun p => (p.2.stg, p.2.stgName))
        = some (1, Stage.RECEIVED)
    ∧ ((create_tracker st cid sub_id request_site serial_no rsd red
          override group_id now).headers.filter (fun p => p.1 ≠ cid)
        = st.headers.filter (fun p => p.1 ≠ cid))
    ∧ ((create_tracker st cid sub_id request_site serial_no rsd red
          override group_id now).details.filter (fun p => p.1 ≠ (cid, 1))
        = st.details.filter (fun p => p.1 ≠ (cid, 1))) := by
  refine ⟨⟨_, get_header_record_putHeader_same st cid _, rfl, rfl, rfl⟩,
    ?_, ?_, ?_⟩
  · show (List.find? _ (((cid, 1), _) :: _)).map _ = _
    rw [List.find?_cons_of_pos _ (by simp)]
    rfl
  · show List.filter _ ((cid, _) :: st.headers.filter _) = _
    rw [List.filter_cons_of_neg (by simp), List.filter_filter]
    simp
  · show List.filter _ (((cid, 1), _) :: st.details.filter _) = _
    rw [List.filter_cons_of_neg (by simp), List.filter_filter]
    simp

/-- C3, counterexample: on the chain `A ← B` the walk of the `extends`
back-chain from the neighbour `B` reaches the terminal request `A`, whose
request start is `800`; yet `extend_policy`, handed the contiguous record
of `B`, submits the replace call with start `900` — the neighbour
record's own `rqstStrtDt` — not the walked terminal start
(`get_terminal_request` is never called by the state machine). -/
theorem C3_extend_policy_counterexample :
    get_terminal_request chainStore 5 chainHeaderB = .ok chainHeaderA ∧
    chainHeaderA.rqstStrtDt = some 800 ∧
    (extend_policy chainContigRequest ⟨200, "OK", 99⟩ "PN-C").1.start_datetime
      = 900 ∧
    (900 : Int) ≠ 800 :=
  ⟨rfl, rfl, rfl, by decide⟩

/-- C3, amended: for a `contiguousExtension`, the replace call targets
the request's meter and takes its start from the contiguous record's
`rqstStrtDt` field — the neighbour's request start, with no walk of the
`extends` back-chain — and its duration is `newEnd − that start` in
(truncated) minutes; on a 200 response the neighbour is advanced to
`EXTENDED_BY(new)`, then the new request to `EXTENDS(neighbour)`, then
the new request to `POLICY_EXTENDED`. -/
theorem C3_extend_policy_spec (request : ContiguousRequest)
    (response : PolicyResponse) (policy_name : String) :
    (extend_policy request response policy_name).1.start_datetime
        = request.rqstStrtDt
    ∧ (extend_policy request response policy_name).1.meter_serials
        = request.switch_addresses
    ∧ (request.rqstStrtDt ≤ request.end_datetime →
        request.rqstStrtDt +
            60 * (extend_policy request response policy_name).1.duration
          ≤ request.end_datetime
        ∧ request.end_datetime <
            request.rqstStrtDt +
              60 * ((extend_policy request response policy_name).1.duration + 1))
    ∧ (response.statusCode = 200 →
        (extend_policy request response policy_name).2.map
            (fun u => (u.correlation_id, u.stage, u.extended_by, u.extends_arg))
          = [(request.crrltnId, Stage.EXTENDED_BY,
              some request.correlation_id, none),
             (request.correlation_id, Stage.EXTENDS,
              none, some request.crrltnId),
             (request.correlation_id, Stage.POLICY_EXTENDED, none, none)]) := by
  refine ⟨rfl, rfl, fun hle => ?_, fun h200 => ?_⟩
  · have h0 : (0 : Int) ≤ request.end_datetime - request.rqstStrtDt := by omega
    have hdiv : (request.end_datetime - request.rqstStrtDt).tdiv 60
        = (request.end_datetime - request.rqstStrtDt) / 60 :=
      Int.tdiv_eq_ediv h0 (by norm_num)
    show request.rqstStrtDt +
        60 * ((request.end_datetime - request.rqstStrtDt).tdiv 60)
      ≤ request.end_datetime
      ∧ request.end_datetime <
          request.rqstStrtDt +
            60 * ((request.end_datetime - request.rqstStrtDt).tdiv 60 + 1)
    rw [hdiv]
    constructor <;> omega
  · simp only [extend_policy, h200]
    simp

/-- C3 witness: the amended theorem applied to the concrete contiguous
record of neighbour `B` with a 200 response. -/
theorem C3_extend_policy_spec_witness :
    (extend_policy chainContigRequest ⟨200, "OK", 99⟩ "PN-C").1.start_datetime
        = chainContigRequest.rqstStrtDt
    ∧ (chainContigRequest.rqstStrtDt +
          60 * (extend_policy chainContigRequest ⟨200, "OK", 99⟩ "PN-C").1.duration
        ≤ chainContigRequest.end_datetime
      ∧ chainContigRequest.end_datetime <
          chainContigRequest.rqstStrtDt +
            60 * ((extend_policy chainContigRequest ⟨200, "OK", 99⟩ "PN-C").1.duration + 1))
    ∧ (extend_policy chainContigRequest ⟨200, "OK", 99⟩ "PN-C").2.map
          (fun u => (u.correlation_id, u.stage, u.extended_by, u.extends_arg))
        = [(chainContigRequest.crrltnId, Stage.EXTENDED_BY,
            some chainContigRequest.correlation_id, none),
           (chainContigRequest.correlation_id, Stage.EXTENDS,
            none, some chainContigRequest.crrltnId),
           (chainContigRequest.correlation_id, Stage.POLICY_EXTENDED,
            none, none)] := by
  have h := C3_extend_policy_spec chainContigRequest ⟨200, "OK", 99⟩ "PN-C"
  exact ⟨h.1, h.2.2.1 (by decide), h.2.2.2 rfl⟩

/-- C4, counterexample: a cancellation attempted at the exact instant the
request ends (`now = 1000 = rqstEndDt`) is *accepted* — the code rejects
only `end < now` — whereas the claim requires rejection unless the end
date is strictly greater than the current time. -/
theorem C4_cancel_counterexample :
    cancel_process_request cancelStoreAtNow (some ⟨"ORIGIN"⟩)
        "SUB-9" "CID-9" "ORIGIN" 1000
      = .accepted "CID-9" ∧
    (get_header_record cancelStoreAtNow "CID-9").map (·.rqstEndDt)
      = some (some 1000) :=
  ⟨rfl, rfl⟩

/-- C4, amended: given a registry subscription owned by the caller, the
cancel endpoint accepts (starting the cancel workflow) iff the header for
the correlation id exists, has no (truthy) `group_id`, its subscription
id equals the caller's, its current stage is one of the eight in-progress
stages, and its end date is present and *not earlier than* `now`
(`end ≥ now`: an end date equal to `now` is accepted); every other case
yields HTTP 400 with no workflow — except a header passing all checks but
lacking an end date, where `datetime.fromisoformat(None)` raises and the
endpoint returns HTTP 500. -/
theorem C4_cancel_spec (st : TrackerState) (sub : Subscription)
    (psid cid subscriber : String) (now : Int)
    (hown : sub.subName = subscriber) :
    (cancel_process_request st (some sub) psid cid subscriber now
        = .accepted cid
      ↔ ∃ h, get_header_record st cid = some h
          ∧ truthyStr h.group_id = false
          ∧ psid = h.subId
          ∧ h.currentStg ∈ IN_PROGRESS_STAGES
          ∧ ∃ ed, h.rqstEndDt = some ed ∧ ¬ ed < now)
    ∧ (∀ h, get_header_record st cid = some h →
        truthyStr h.group_id = false → psid = h.subId →
        h.currentStg ∈ IN_PROGRESS_STAGES → h.rqstEndDt = none →
        cancel_process_request st (some sub) psid cid subscriber now
          = .internalError "TypeError: fromisoformat(None)") := by
  constructor
  · cases hh : get_header_record st cid with
    | none => simp [cancel_process_request, hown, hh]
    | some h =>
      by_cases hg : truthyStr h.group_id
      · simp [cancel_process_request, hown, hh, hg]
      · by_cases hps : psid = h.subId
        · by_cases hstg : h.currentStg ∈ IN_PROGRESS_STAGES
          · cases hed : h.rqstEndDt with
            | none =>
              simp [cancel_process_request, hown, hh, hg, hps, hstg, hed]
            | some ed =>
              by_cases hlt : ed < now
              · simp [cancel_process_request, hown, hh, hg, hps, hstg, hed,
                      hlt]
              · simp [cancel_process_request, hown, hh, hg, hps, hstg, hed,
                      hlt]
                omega
          · simp [cancel_process_request, hown, hh, hg, hps, hstg]
        · simp [cancel_process_request, hown, hh, hg, hps]
  · intro h hh hg hps hstg hed
    simp [cancel_process_request, hown, hh, hg, hps, hstg, hed]

/-- C4 witness: the acceptance direction of the amended theorem at a
concrete store whose single header passes every check with its end date
equal to `now`. -/
theorem C4_cancel_spec_witness :
    cancel_process_request cancelStoreAtNow (some ⟨"ORIGIN"⟩)
        "SUB-9" "CID-9" "ORIGIN" 1000
      = .accepted "CID-9" :=
  (C4_cancel_spec cancelStoreAtNow ⟨"ORIGIN"⟩ "SUB-9" "CID-9" "ORIGIN" 1000
      rfl).1.mpr
    ⟨cancelHeaderAtNow, rfl, rfl, rfl, by decide, 1000, rfl, by decide⟩

/-- C6, counterexample: for a batch of 500 records the expected pro-rata
period is `round(500 / 1000 × 60) = 30` seconds, yet with zero seconds of
wall time spent the handler sleeps `60 − 0 = 60` seconds
(`time.sleep(RATE_LIMIT_PERIOD - processing_time)`), not the remainder
`30 − 0 = 30` the claim requires. -/
theorem C6_batch_sleep_counterexample :
    expected_runtime 500 = 30 ∧ batch_sleep 500 0 = some 60 ∧
    (60 : Int) ≠ 30 :=
  ⟨rfl, rfl, by decide⟩

/-- C6, amended: whenever the wall time spent submitting the batch is
below the expected pro-rata period the handler sleeps
`RATE_LIMIT_PERIOD − elapsed` seconds — the remainder of the *full*
rate-limit period, not of the expected pro-rata period — and it does not
sleep at all when the wall time is at or above the expected period. -/
theorem C6_batch_sleep_spec (num_records processing_time : Nat) :
    (processing_time < expected_runtime num_records →
      batch_sleep num_records processing_time
        = some ((RATE_LIMIT_PERIOD_SEC : Int) - (processing_time : Int)))
    ∧ (expected_runtime num_records ≤ processing_time →
      batch_sleep num_records processing_time = none) := by
  constructor
  · intro h
    simp [batch_sleep, h]
  · intro h
    simp [batch_sleep, Nat.not_lt.mpr h]

/-- C6 witness: the amended theorem applied to a 500-record batch
submitted in 10 seconds (expected pro-rata period 30 s): the handler
sleeps 50 s. -/
theorem C6_batch_sleep_spec_witness :
    batch_sleep 500 10
      = some ((RATE_LIMIT_PERIOD_SEC : Int) - (10 : Int)) :=
  (C6_batch_sleep_spec 500 10).1 (by decide)

theorem dispatching_chunks_eq (mx : Nat) (l : List α) :
    dispatching_chunks mx l =
      (List.range (dispatchCnt mx l.length)).map
        (fun i => pySlice l (i * mx)
          (i * mx +
            (if i = dispatchCnt mx l.length - 1 ∧ dispatchFoff mx l.length ≠ 0
             then dispatchFoff mx l.length else mx))) := rfl

theorem flatten_uniform_slices (l : List α) (m : Nat) (k : Nat) :
    ((List.range k).map (fun i => (l.drop (i * m)).take m)).flatten
      = l.take (k * m) := by
  induction k with
  | zero => simp
  | succ k ih =>
    rw [List.range_succ, List.map_append]
    simp only [List.map_cons, List.map_nil]
    rw [List.flatten_append, ih]
    simp only [List.flatten_cons, List.flatten_nil, List.append_nil]
    rw [Nat.succ_mul, List.take_add]

set_option maxRecDepth 40000 in
/-- C5, counterexample: with `MAX_DISPATCH_COUNT = 100`, a 150-member
unit has trailing remainder `50 = MAX/2` — which the claim says must
*never* be folded — yet the code folds it, emitting a single 150-member
chunk; and a 60-member unit is emitted as the whole list followed by a
spurious *empty* chunk, violating the claim's non-emptiness. -/
theorem C5_dispatch_counterexample :
    ¬ dispatchClaim 100 (List.range 150) ∧
    ¬ dispatchClaim 100 (List.range 60) := by
  constructor <;> decide

/-- C5, amended: the emitted chunks always concatenate back to the input.
With `r = len % MAX` and `q = len / MAX`: when `r ≤ MAX / 2` (note: the
fold also happens at exactly `MAX / 2`) the remainder is folded — a
single chunk of the whole list when `q = 0`, otherwise `q − 1` chunks of
`MAX` and a final chunk of `MAX + r`; when `r > MAX / 2` and `q ≥ 1` the
remainder forms its own final chunk after `q` chunks of `MAX`; and when
`r > MAX / 2` but `q = 0` (a unit shorter than `MAX`) the code emits the
whole list followed by a spurious empty chunk. -/
theorem C5_dispatching_chunks_spec (mx : Nat) (l : List α) (hmx : 0 < mx) :
    (dispatching_chunks mx l).flatten = l
    ∧ (l.length % mx ≤ mx / 2 → l.length / mx = 0 →
        (dispatching_chunks mx l).map List.length = [l.length])
    ∧ (l.length % mx ≤ mx / 2 → 1 ≤ l.length / mx →
        (dispatching_chunks mx l).map List.length
          = List.replicate (l.length / mx - 1) mx ++ [mx + l.length % mx])
    ∧ (mx / 2 < l.length % mx → l.length / mx = 0 →
        (dispatching_chunks mx l).map List.length = [l.length, 0])
    ∧ (mx / 2 < l.length % mx → 1 ≤ l.length / mx →
        (dispatching_chunks mx l).map List.length
          = List.replicate (l.length / mx) mx ++ [l.length % mx]) := by
  have hdm : mx * (l.length / mx) + l.length % mx = l.length :=
    Nat.div_add_mod l.length mx
  have hcomm : mx * (l.length / mx) = (l.length / mx) * mx := by ring
  by_cases hr : l.length % mx ≤ mx / 2
  · -- fold regime: f_offset = mx + r ≠ 0
    have hfoff : dispatchFoff mx l.length = mx + l.length % mx := by
      simp [dispatchFoff, hr]
    have hfne : mx + l.length % mx ≠ 0 := by omega
    by_cases hq : l.length / mx = 0
    · -- single folded chunk
      have hcnt : dispatchCnt mx l.length = 1 := by
        simp [dispatchCnt, hq, Nat.not_lt.mpr hr]
      have hlen : l.length = l.length % mx := by
        have h0 := hdm
        rw [hq, Nat.mul_zero, Nat.zero_add] at h0
        omega
      have hchunks : dispatching_chunks mx l
          = [l.take (mx + l.length % mx)] := by
        rw [dispatching_chunks_eq, hcnt, hfoff,
            show List.range 1 = [0] from rfl]
        simp [pySlice, hfne]
      refine ⟨?_, fun _ _ => ?_, fun _ h1 => absurd h1 (by omega),
        fun h1 _ => absurd h1 (by omega), fun h1 _ => absurd h1 (by omega)⟩
      · rw [hchunks]
        simp [List.take_of_length_le (by omega : l.length ≤ mx + l.length % mx)]
      · rw [hchunks]
        simp only [List.map_cons, List.map_nil, List.length_take]
        rw [min_eq_right (by omega : l.length ≤ mx + l.length % mx)]
    · -- q ≥ 1: q − 1 full chunks and one folded final chunk
      have hq1 : 1 ≤ l.length / mx := Nat.pos_of_ne_zero hq
      have hcnt : dispatchCnt mx l.length = l.length / mx := by
        simp only [dispatchCnt]
        rw [if_neg (fun hcon => absurd hcon.1 (Nat.not_lt.mpr hr))]
        split <;> omega
      have hmul : (l.length / mx - 1) * mx + mx
          = mx * (l.length / mx) := by
        have h2 : l.length / mx - 1 + 1 = l.length / mx := by omega
        calc (l.length / mx - 1) * mx + mx
            = (l.length / mx - 1 + 1) * mx := by ring
          _ = mx * (l.length / mx) := by rw [h2]; ring
      have hchunks : dispatching_chunks mx l
          = ((List.range (l.length / mx - 1)).map
              (fun i => (l.drop (i * mx)).take mx))
            ++ [(l.drop ((l.length / mx - 1) * mx)).take
                  (mx + l.length % mx)] := by
        rw [dispatching_chunks_eq, hcnt, hfoff]
        rw [show List.range (l.length / mx)
            = List.range (l.length / mx - 1) ++ [l.length / mx - 1] by
          rw [← List.range_succ]; congr 1; omega]
        rw [List.map_append]
        congr 1
        · refine List.map_congr_left (fun i hi => ?_)
          rw [List.mem_range] at hi
          rw [if_neg (fun hcon => absurd hcon.1 (by omega))]
          simp [pySlice]
        · simp [pySlice, hfne]
      refine ⟨?_, fun _ h0 => absurd h0 (by omega), fun _ _ => ?_,
        fun h1 _ => absurd h1 (by omega), fun h1 _ => absurd h1 (by omega)⟩
      · rw [hchunks, List.flatten_append, flatten_uniform_slices]
        simp only [List.flatten_cons, List.flatten_nil, List.append_nil]
        rw [← List.take_add]
        exact List.take_of_length_le (by omega)
      · rw [hchunks, List.map_append]
        congr 1
        · rw [List.eq_replicate_iff]
          refine ⟨by simp, fun b hb => ?_⟩
          simp only [List.map_map, List.mem_map, List.mem_range] at hb
          obtain ⟨a, ha, hab⟩ := hb
          have hexp : (a + 1) * mx = a * mx + mx := by ring
          have hle : (a + 1) * mx ≤ (l.length / mx - 1) * mx :=
            Nat.mul_le_mul_right mx (by omega)
          rw [← hab]
          simp only [Function.comp_apply, List.length_take, List.length_drop]
          rw [min_eq_left (by omega)]
        · simp only [List.map_cons, List.map_nil, List.length_take,
            List.length_drop]
          have heq : l.length - (l.length / mx - 1) * mx
              = mx + l.length % mx := by omega
          rw [heq, min_self]
  · -- no-fold regime: f_offset = 0, all offsets mx
    have hr' : mx / 2 < l.length % mx := by omega
    have hfoff : dispatchFoff mx l.length = 0 := by
      simp [dispatchFoff, hr]
    have huni : dispatching_chunks mx l
        = (List.range (dispatchCnt mx l.length)).map
            (fun i => (l.drop (i * mx)).take mx) := by
      rw [dispatching_chunks_eq, hfoff]
      refine List.map_congr_left (fun i _ => ?_)
      simp [pySlice]
    have hrlt : l.length % mx < mx := Nat.mod_lt _ hmx
    by_cases hq : l.length / mx = 0
    · -- whole list plus an empty chunk
      have hcnt : dispatchCnt mx l.length = 2 := by
        simp [dispatchCnt, hq, hr']
      have hlen : l.length = l.length % mx := by
        have h0 := hdm
        rw [hq, Nat.mul_zero, Nat.zero_add] at h0
        omega
      have hnlt : l.length < mx := by omega
      refine ⟨?_, fun h0 _ => absurd h0 (by omega),
        fun h0 _ => absurd h0 (by omega), fun _ _ => ?_,
        fun _ h1 => absurd h1 (by omega)⟩
      · rw [huni, hcnt, flatten_uniform_slices]
        exact List.take_of_length_le (by omega)
      · rw [huni, hcnt]
        rw [show List.range 2 = [0, 1] from rfl]
        simp only [List.map_cons, List.map_nil, List.length_take,
          List.length_drop, Nat.zero_mul, Nat.one_mul, Nat.sub_zero]
        rw [min_eq_right (by omega : l.length ≤ mx),
            show l.length - mx = 0 by omega, Nat.min_zero]
    · -- q full chunks plus the remainder chunk
      have hq1 : 1 ≤ l.length / mx := Nat.pos_of_ne_zero hq
      have hcnt : dispatchCnt mx l.length = l.length / mx + 1 := by
        simp only [dispatchCnt]
        rw [if_pos ⟨hr', by split <;> omega⟩]
        split <;> omega
      refine ⟨?_, fun h0 _ => absurd h0 (by omega),
        fun h0 _ => absurd h0 (by omega),
        fun _ h0 => absurd h0 (by omega), fun _ _ => ?_⟩
      · rw [huni, hcnt, flatten_uniform_slices]
        refine List.take_of_length_le ?_
        have hstep : (l.length / mx + 1) * mx = (l.length / mx) * mx + mx := by
          ring
        omega
      · rw [huni, hcnt, List.range_succ, List.map_append, List.map_append]
        congr 1
        · rw [List.eq_replicate_iff]
          refine ⟨by simp, fun b hb => ?_⟩
          simp only [List.map_map, List.mem_map, List.mem_range] at hb
          obtain ⟨a, ha, hab⟩ := hb
          have hexp : (a + 1) * mx = a * mx + mx := by ring
          have hle : (a + 1) * mx ≤ (l.length / mx) * mx :=
            Nat.mul_le_mul_right mx (by omega)
          rw [← hab]
          simp only [Function.comp_apply, List.length_take, List.length_drop]
          rw [min_eq_left (by omega)]
        · simp only [List.map_cons, List.map_nil, List.length_take,
            List.length_drop]
          have heq : l.length - (l.length / mx) * mx = l.length % mx := by
            omega
          rw [heq, min_eq_right (by omega)]

/-- C5 witness: the amended theorem at `MAX_DISPATCH_COUNT = 100` on a
230-element list (`q = 2`, `r = 30 ≤ 50`): the chunks concatenate back to
the input and their lengths are `[100, 130]`. -/
theorem C5_dispatching_chunks_spec_witness :
    (dispatching_chunks 100 (List.range 230)).flatten = List.range 230
    ∧ (dispatching_chunks 100 (List.range 230)).map List.length
        = List.replicate ((List.range 230).length / 100 - 1) 100
          ++ [100 + (List.range 230).length % 100] := by
  have h := C5_dispatching_chunks_spec 100 (List.range 230) (by norm_num)
  exact ⟨h.1, h.2.2.1 (by simp) (by simp)⟩

theorem addField_eq (payload : List (String × String)) (field : String)
    (value : Option String) :
    addField payload field value
      = payload ++
        (if value.getD "" = "" then [] else [(field, value.getD "")]) := by
  cases value with
  | none => simp [addField]
  | some s => by_cases h : s = "" <;> simp [addField, h]

theorem foldl_addField (cands : List (String × Option String))
    (acc : List (String × String)) :
    cands.foldl (fun payload kv => addField payload kv.1 kv.2) acc
      = acc ++ (cands.map (fun kv => (kv.1, kv.2.getD ""))).filter
          (fun p => p.2 ≠ "") := by
  induction cands generalizing acc with
  | nil => simp
  | cons kv rest ih =>
    rw [List.foldl_cons, ih, addField_eq, List.map_cons, List.filter_cons]
    by_cases h : kv.2.getD "" = "" <;> simp [h]

/-- C9, counterexample: an assembled event whose `site` field is present
(a non-`None` value, the empty string) is serialised *without* the
`site` key — `_add_field` tests Python truthiness, not presence — so the
claim that every present field appears under its camel-case key is
false. -/
theorem C9_empty_site_counterexample :
    emptySiteEvent.site = some "" ∧
    (as_camelcase_dict emptySiteEvent).map Prod.fst
      = ["eventType", "eventDescription", "milestone", "subscriptionId",
         "correlationId", "meterSerialNumber", "eventDatetime"] :=
  ⟨rfl, rfl⟩

/-- C9, amended: the serialised payload is exactly the ten fixed
camel-case keys in source order, filtered to those whose value is
*truthy*: a key appears iff its value is present **and** non-empty, so
absent, `None`, and empty-string fields alike are omitted entirely and no
key is ever emitted with a null or empty value. -/
theorem C9_as_camelcase_dict_spec (e : BaseMeterEvent) :
    as_camelcase_dict e
      = ((cameldict_fields e).map (fun kv => (kv.1, kv.2.getD ""))).filter
          (fun p => p.2 ≠ "") := by
  rw [show as_camelcase_dict e
      = (cameldict_fields e).foldl
          (fun payload kv => addField payload kv.1 kv.2) [] from rfl]
  rw [foldl_addField]
  simp


end Dlc
